import Mathlib

/-!
Verification of the line-delimited JSON-RPC ("MCP") server in
`src/postgres_mcp.py` against its natural-language specification.

The embedding mirrors the Python module:
  * `Json` models the values `json.loads` / `json.dumps` work with
    (numbers restricted to integers, which is all this server produces).
  * `DB` models the external psycopg2 database as an oracle: the outcome
    of `psycopg2.connect`, of executing-and-fetching each of the three
    statements.  `DBEvent` traces connection opens and closes so that
    resource-release claims are statable.
  * `query_db`, `list_tables`, `describe_table`, `handle`, `send`,
    `format_text` and `mainLoop` are line-by-line translations of the
    Python functions of the same names; Python exceptions are modelled by
    `Except String` (carrying `str(e)`).
  * The `main` loop's local variable `msg` is modelled by an
    `Option Json` (`none` = not yet bound), because the `except` handler
    reads it; reading it unbound (or calling `.get` on a non-dict) raises
    inside the handler, which is uncaught and crashes the process —
    modelled by `RunResult.crashed`.
-/

namespace PgMcp

/-- JSON values as produced by `json.loads` (integer numerics suffice here). -/
inductive Json where
  | null
  | bool (b : Bool)
  | num (n : Int)
  | str (s : String)
  | arr (elems : List Json)
  | obj (fields : List (String × Json))

/-- Dict lookup; `json.loads` keeps the *last* occurrence of a duplicated key,
so the rightmost binding wins. -/
def jlookup : List (String × Json) → String → Option Json
  | [], _ => none
  | (k, v) :: rest, key =>
    match jlookup rest key with
    | some r => some r
    | none => if k = key then some v else none

/-- Membership test for a dict key (`key in d` / `setdefault` check). -/
def hasKey : List (String × Json) → String → Bool
  | [], _ => false
  | (k, _) :: rest, key => k == key || hasKey rest key

/-- Python's type name for a value, as it appears in `AttributeError` text. -/
def pyTypeName : Json → String
  | .null => "NoneType"
  | .bool _ => "bool"
  | .num _ => "int"
  | .str _ => "str"
  | .arr _ => "list"
  | .obj _ => "dict"

/-- `d.get(key, default)`: total on dicts, raises `AttributeError` on anything
else (that is what `msg.get(...)` does when `msg` is not a dict). -/
def pyGetD (j : Json) (key : String) (dflt : Json) : Except String Json :=
  match j with
  | .obj kvs => .ok ((jlookup kvs key).getD dflt)
  | other => .error ("'" ++ pyTypeName other ++ "' object has no attribute 'get'")

mutual
/-- Python `repr` of a parsed-JSON value (used for elements inside containers
and by `str` on containers). -/
def pyRepr : Json → String
  | .null => "None"
  | .bool true => "True"
  | .bool false => "False"
  | .num n => toString n
  | .str s => "'" ++ s ++ "'"
  | .arr xs => "[" ++ pyReprArr xs ++ "]"
  | .obj kvs => "\x7b" ++ pyReprObj kvs ++ "\x7d"
def pyReprArr : List Json → String
  | [] => ""
  | [x] => pyRepr x
  | x :: xs => pyRepr x ++ ", " ++ pyReprArr xs
def pyReprObj : List (String × Json) → String
  | [] => ""
  | [(k, v)] => "'" ++ k ++ "': " ++ pyRepr v
  | (k, v) :: kvs => "'" ++ k ++ "': " ++ pyRepr v ++ ", " ++ pyReprObj kvs
end

/-- Python `str()` of a parsed-JSON value, as an f-string interpolates it. -/
def pyStr : Json → String
  | .str s => s
  | other => pyRepr other

/-- Python truthiness of a parsed-JSON value (`if response:`). -/
def pyTruthy : Json → Bool
  | .null => false
  | .bool b => b
  | .num n => n != 0
  | .str s => !s.isEmpty
  | .arr xs => !xs.isEmpty
  | .obj kvs => !kvs.isEmpty

/-- Python `==` between a parsed value and a string literal: string compare
when the value is a string, `False` for every other type. -/
def jeqStr (j : Json) (s : String) : Bool :=
  match j with
  | .str t => t == s
  | _ => false

/-- Characters `str.strip()` removes (ASCII whitespace). -/
def pyIsSpace (c : Char) : Bool :=
  c == ' ' || c == '\t' || c == '\n' || c == '\r' || c == '\x0b' || c == '\x0c'

/-- `str.strip()` on the character list: drop whitespace at both ends. -/
def pyStripChars (l : List Char) : List Char :=
  ((l.dropWhile pyIsSpace).reverse.dropWhile pyIsSpace).reverse

/-- `str.upper()` on one ASCII character. -/
def pyUpperChar (c : Char) : Char :=
  if 'a' ≤ c ∧ c ≤ 'z' then Char.ofNat (c.toNat - 32) else c

/-- The guard `query.strip().upper().startswith("SELECT")` of `query_db`. -/
def isSelect (q : String) : Bool :=
  "SELECT".data.isPrefixOf ((pyStripChars q.data).map pyUpperChar)

/-- JSON string quoting for `json.dumps` (the escapes this server can emit). -/
def escChar (c : Char) : String :=
  if c = '"' then "\\\""
  else if c = '\\' then "\\\\"
  else if c = '\n' then "\\n"
  else if c = '\t' then "\\t"
  else if c = '\r' then "\\r"
  else String.singleton c

/-- Quote a string as a JSON string literal. -/
def jquote (s : String) : String := "\"" ++ String.join (s.data.map escChar) ++ "\""

/-- `n` spaces, for `json.dumps(..., indent=2)`. -/
def spaces : Nat → String
  | 0 => ""
  | n + 1 => " " ++ spaces n

mutual
/-- `json.dumps(v, indent=2)` at the given current indentation level. -/
def jdump (ind : Nat) : Json → String
  | .null => "null"
  | .bool true => "true"
  | .bool false => "false"
  | .num n => toString n
  | .str s => jquote s
  | .arr [] => "[]"
  | .arr (x :: t) =>
    "[\n" ++ spaces (ind + 2) ++ jdumpArr (ind + 2) (x :: t) ++ "\n" ++ spaces ind ++ "]"
  | .obj [] => "\x7b\x7d"
  | .obj (kv :: t) =>
    "\x7b\n" ++ spaces (ind + 2) ++ jdumpObj (ind + 2) (kv :: t) ++ "\n" ++ spaces ind ++ "\x7d"
def jdumpArr (ind : Nat) : List Json → String
  | [] => ""
  | [x] => jdump ind x
  | x :: t => jdump ind x ++ ",\n" ++ spaces ind ++ jdumpArr ind t
def jdumpObj (ind : Nat) : List (String × Json) → String
  | [] => ""
  | [(k, v)] => jquote k ++ ": " ++ jdump ind v
  | (k, v) :: t => jquote k ++ ": " ++ jdump ind v ++ ",\n" ++ spaces ind ++ jdumpObj ind t
end

-- ---------------------------------------------------------------- DB oracle

/-- One row of a `RealDictCursor` result: an ordered column→value mapping
(values already string-coerced where psycopg2/`default=str` would do so). -/
abbrev Row := List (String × Json)

/-- Connection lifecycle events, for stating resource-release properties. -/
inductive DBEvent where
  | openConn
  | closeConn
deriving DecidableEq

/-- The external PostgreSQL side, abstracted as an oracle: what
`psycopg2.connect` does, and what executing-and-fetching each of the three
statements yields.  `Except.error e` models the call raising with `str(e)`. -/
structure DB where
  connect : Except String Unit
  runQuery : String → Except String (List Row)
  tableRows : Except String (List String)
  columnRows : Json → Except String (List Row)

/-- The fixed policy-violation rejection string of `query_db`. -/
def rejection : String := "❌ Error: Only SELECT allowed."

/-- The error string `except Exception as e: return f"❌ DB Error: {e}"` builds. -/
def dbError (e : String) : String := "❌ DB Error: " ++ e

/-- Does a string begin with the DB-error marker? -/
def isDbErrorStr (s : String) : Bool := "❌ DB Error:".data.isPrefixOf s.data

/-- Serialise rows as `json.dumps(rows, indent=2, ...)` does. -/
def dumpRows (rows : List Row) : String := jdump 0 (.arr (rows.map Json.obj))

/-- Body of `query_db` once the argument is known to be a string: the SELECT
guard, then connect / execute / fetch / close with `except` catching
everything after the guard.  On an exception from execute/fetch the
`conn.close()` line is skipped (there is no `finally`), hence the trace
`[openConn]` with no close. -/
def query_db_str (db : DB) (q : String) : String × List DBEvent :=
  if !(isSelect q) then (rejection, [])
  else
    match db.connect with
    | .error e => (dbError e, [])
    | .ok () =>
      match db.runQuery q with
      | .error e => (dbError e, [.openConn])
      | .ok rows =>
        if rows.isEmpty then ("No results", [.openConn, .closeConn])
        else (dumpRows rows, [.openConn, .closeConn])

/-- `query_db(query)`: `query.strip()` raises `AttributeError` when the
argument is not a string — *before* the `try` block — so that failure
escapes; for strings it never raises. -/
def query_db (db : DB) (arg : Json) : Except String (String × List DBEvent) :=
  match arg with
  | .str q => .ok (query_db_str db q)
  | other => .error ("'" ++ pyTypeName other ++ "' object has no attribute 'strip'")

/-- Join lines with newlines (`"\n".join(...)`). -/
def joinLines : List String → String
  | [] => ""
  | [x] => x
  | x :: xs => x ++ "\n" ++ joinLines xs

/-- `list_tables()`: catalog query over `information_schema.tables`, all
failures caught and stringified; same missing-close-on-error shape. -/
def list_tables (db : DB) : String × List DBEvent :=
  match db.connect with
  | .error e => (dbError e, [])
  | .ok () =>
    match db.tableRows with
    | .error e => (dbError e, [.openConn])
    | .ok rows =>
      if rows.isEmpty then ("No tables", [.openConn, .closeConn])
      else (joinLines (rows.map (fun t => "- " ++ t)), [.openConn, .closeConn])

/-- `describe_table(name)`: parameterised catalog lookup; everything happens
inside the `try`, so this never raises whatever `name` is. -/
def describe_table (db : DB) (name : Json) : String × List DBEvent :=
  match db.connect with
  | .error e => (dbError e, [])
  | .ok () =>
    match db.columnRows name with
    | .error e => (dbError e, [.openConn])
    | .ok rows =>
      if rows.isEmpty then
        ("Table `" ++ pyStr name ++ "` not found.", [.openConn, .closeConn])
      else (jdump 0 (.arr (rows.map Json.obj)), [.openConn, .closeConn])

-- ------------------------------------------------------------ MCP handling

/-- `format_text(text)` = `{"type": "text", "text": str(text)}` (its argument
is always already a string in this program). -/
def format_text (text : String) : Json :=
  .obj [("type", .str "text"), ("text", .str text)]

/-- A `{id, result}` response dict as `handle` builds them. -/
def okResp (i : Json) (res : Json) : Json := .obj [("id", i), ("result", res)]

/-- A `{id, error: {code, message}}` response dict. -/
def errResp (i : Json) (code : Int) (message : String) : Json :=
  .obj [("id", i), ("error", .obj [("code", .num code), ("message", .str message)])]

/-- The response to a `tools/call`: a result with one text content block. -/
def toolResult (i : Json) (out : String) : Json :=
  okResp i (.obj [("content", .arr [format_text out])])

/-- The "method not found" error code used by `handle`. -/
def methodNotFoundCode : Int := -32601

/-- The generic transport/parse-failure error code used by `main`. -/
def internalErrorCode : Int := -32000

/-- The static `initialize` result payload. -/
def initResult : Json := .obj [
  ("protocolVersion", .str "2024-11-05"),
  ("capabilities", .obj [
    ("tools", .obj []),
    ("resources", .obj []),
    ("prompts", .obj [])]),
  ("serverInfo", .obj [
    ("name", .str "postgres-mcp"),
    ("version", .str "1.0.0")])]

/-- The static three-element tool catalog returned by `tools/list`. -/
def toolCatalog : Json := .obj [("tools", .arr [
  .obj [
    ("name", .str "query_database"),
    ("description", .str "Execute SELECT query"),
    ("inputSchema", .obj [
      ("type", .str "object"),
      ("properties", .obj [("query", .obj [("type", .str "string")])]),
      ("required", .arr [.str "query"])])],
  .obj [
    ("name", .str "list_tables"),
    ("description", .str "List PostgreSQL tables"),
    ("inputSchema", .obj [("type", .str "object")])],
  .obj [
    ("name", .str "describe_table"),
    ("description", .str "Describe a table"),
    ("inputSchema", .obj [
      ("type", .str "object"),
      ("properties", .obj [("table_name", .obj [("type", .str "string")])]),
      ("required", .arr [.str "table_name"])])]])]

/-- `handle(msg)`: the method dispatcher.  `.error e` models an exception
propagating out of `handle` (to be caught by `main`); the second component
is the DB connection trace of the dispatched gateway call.  The `log` call
writes to stderr only, outside the protocol stream, and is not modelled. -/
def handle (db : DB) (msg : Json) : Except String (Option Json × List DBEvent) := do
  let method ← pyGetD msg "method" .null
  let msg_id ← pyGetD msg "id" .null
  let params ← pyGetD msg "params" (.obj [])
  if jeqStr method "initialize" then
    return (some (okResp msg_id initResult), [])
  else if jeqStr method "tools/list" then
    return (some (okResp msg_id toolCatalog), [])
  else if jeqStr method "tools/call" then
    let tool ← pyGetD params "name" .null
    let args ← pyGetD params "arguments" (.obj [])
    if jeqStr tool "query_database" then
      let q ← pyGetD args "query" (.str "")
      let (out, tr) ← query_db db q
      return (some (toolResult msg_id out), tr)
    else if jeqStr tool "list_tables" then
      let (out, tr) := list_tables db
      return (some (toolResult msg_id out), tr)
    else if jeqStr tool "describe_table" then
      let tn ← pyGetD args "table_name" (.str "")
      let (out, tr) := describe_table db tn
      return (some (toolResult msg_id out), tr)
    else
      return (some (toolResult msg_id ("Unknown tool: " ++ pyStr tool)), [])
  else if jeqStr method "notifications/initialized" then
    return (none, [])
  else
    return (some (errResp msg_id methodNotFoundCode ("Unknown method: " ++ pyStr method)), [])

/-- `send(resp)`: `resp.setdefault("jsonrpc", "2.0")` then print one line.
Every caller passes a dict; on a dict the key is appended when absent. -/
def send (resp : Json) : Json :=
  match resp with
  | .obj kvs => if hasKey kvs "jsonrpc" then .obj kvs else .obj (kvs ++ [("jsonrpc", .str "2.0")])
  | other => other

/-- One line read from stdin, after `line.strip()`: blank, unparseable JSON
(`json.loads` raised with message `err`), or a parsed value. -/
inductive Line where
  | blank
  | junk (err : String)
  | json (j : Json)

/-- Outcome of running the transport loop: the response objects written to
stdout (one line each, in order), and whether the process crashed from an
exception escaping the `except` handler itself. -/
structure RunResult where
  outputs : List Json
  crashed : Bool

/-- The `while` loop of `main`.  `last` is the current state of the local
variable `msg` (`none` = never assigned).  On a parse failure or dispatch
exception the handler evaluates `msg.get("id", None)`: if `msg` is unbound
that raises `UnboundLocalError`, if `msg` is not a dict it raises
`AttributeError`; either exception is uncaught, so the process dies. -/
def mainLoop (db : DB) : Option Json → List Line → RunResult
  | _, [] => ⟨[], false⟩
  | last, .blank :: rest => mainLoop db last rest
  | last, .junk e :: rest =>
    match last with
    | none => ⟨[], true⟩
    | some m =>
      match pyGetD m "id" .null with
      | .error _ => ⟨[], true⟩
      | .ok i =>
        let k := mainLoop db last rest
        ⟨send (errResp i internalErrorCode e) :: k.outputs, k.crashed⟩
  | _, .json j :: rest =>
    match handle db j with
    | .error e =>
      match pyGetD j "id" .null with
      | .error _ => ⟨[], true⟩
      | .ok i =>
        let k := mainLoop db (some j) rest
        ⟨send (errResp i internalErrorCode e) :: k.outputs, k.crashed⟩
    | .ok (none, _) => mainLoop db (some j) rest
    | .ok (some r, _) =>
      if pyTruthy r then
        let k := mainLoop db (some j) rest
        ⟨send r :: k.outputs, k.crashed⟩
      else mainLoop db (some j) rest

/-- A run of `main` from process start: `msg` unbound, given stdin lines. -/
def runMain (db : DB) (lines : List Line) : RunResult := mainLoop db none lines

-- ------------------------------------------------------- helper lemmas

theorem ebind_ok {α β : Type} (a : α) (f : α → Except String β) :
    (Except.ok a >>= f) = f a := rfl

theorem ebind_err {α β : Type} (e : String) (f : α → Except String β) :
    ((Except.error e : Except String α) >>= f) = .error e := rfl

theorem pyGetD_obj (kvs : List (String × Json)) (key : String) (dflt : Json) :
    pyGetD (.obj kvs) key dflt = .ok ((jlookup kvs key).getD dflt) := rfl

theorem epure {α : Type} (x : α) : (pure x : Except String α) = .ok x := rfl

theorem emap_ok {α β : Type} (f : α → β) (a : α) :
    (f <$> (Except.ok a : Except String α)) = .ok (f a) := rfl

theorem emap_err {α β : Type} (f : α → β) (e : String) :
    (f <$> (Except.error e : Except String α)) = .error e := rfl

/-- The `tools/call` block of `handle`, as a standalone function so that its
outcomes can be case-analysed; `handle` on a dict message is definitionally
this in the `tools/call` branch (checked by `handle_obj_eq`). -/
def toolCallBranch (db : DB) (msg_id params : Json) :
    Except String (Option Json × List DBEvent) := do
  let tool ← pyGetD params "name" .null
  let args ← pyGetD params "arguments" (.obj [])
  if jeqStr tool "query_database" then
    let q ← pyGetD args "query" (.str "")
    let (out, tr) ← query_db db q
    return (some (toolResult msg_id out), tr)
  else if jeqStr tool "list_tables" then
    let (out, tr) := list_tables db
    return (some (toolResult msg_id out), tr)
  else if jeqStr tool "describe_table" then
    let tn ← pyGetD args "table_name" (.str "")
    let (out, tr) := describe_table db tn
    return (some (toolResult msg_id out), tr)
  else
    return (some (toolResult msg_id ("Unknown tool: " ++ pyStr tool)), [])

/-- On a dict message, `handle` is the bare method if-chain (all three
top-level `.get` calls succeed). -/
theorem handle_obj_eq (db : DB) (kvs : List (String × Json)) :
    handle db (.obj kvs) =
      (if jeqStr ((jlookup kvs "method").getD .null) "initialize" then
        .ok (some (okResp ((jlookup kvs "id").getD .null) initResult), [])
      else if jeqStr ((jlookup kvs "method").getD .null) "tools/list" then
        .ok (some (okResp ((jlookup kvs "id").getD .null) toolCatalog), [])
      else if jeqStr ((jlookup kvs "method").getD .null) "tools/call" then
        toolCallBranch db ((jlookup kvs "id").getD .null)
          ((jlookup kvs "params").getD (.obj []))
      else if jeqStr ((jlookup kvs "method").getD .null) "notifications/initialized" then
        .ok (none, [])
      else
        .ok (some (errResp ((jlookup kvs "id").getD .null) methodNotFoundCode
          ("Unknown method: " ++ pyStr ((jlookup kvs "method").getD .null))), [])) := rfl

/-- Every exit of the `tools/call` block either raises or yields a result
response wrapping one text content block. -/
theorem toolCall_cases (db : DB) (i params : Json) :
    (∃ e, toolCallBranch db i params = .error e) ∨
    (∃ out tr, toolCallBranch db i params = .ok (some (toolResult i out), tr)) := by
  cases params with
  | obj pkvs =>
    simp only [toolCallBranch, pyGetD_obj, ebind_ok]
    by_cases h1 : jeqStr ((jlookup pkvs "name").getD .null) "query_database" = true
    · simp only [h1, if_true]
      rcases ha : (jlookup pkvs "arguments").getD (.obj []) with _ | b | n | s | xs | akvs
      · exact Or.inl ⟨_, rfl⟩
      · exact Or.inl ⟨_, rfl⟩
      · exact Or.inl ⟨_, rfl⟩
      · exact Or.inl ⟨_, rfl⟩
      · exact Or.inl ⟨_, rfl⟩
      · simp only [pyGetD_obj, ebind_ok]
        rcases hq : (jlookup akvs "query").getD (.str "") with _ | b | n | s | xs | qkvs
        · exact Or.inl ⟨_, rfl⟩
        · exact Or.inl ⟨_, rfl⟩
        · exact Or.inl ⟨_, rfl⟩
        · exact Or.inr ⟨_, _, rfl⟩
        · exact Or.inl ⟨_, rfl⟩
        · exact Or.inl ⟨_, rfl⟩
    · simp only [h1, if_false]
      by_cases h2 : jeqStr ((jlookup pkvs "name").getD .null) "list_tables" = true
      · simp only [h2, if_true]
        exact Or.inr ⟨_, _, rfl⟩
      · simp only [h2, if_false]
        by_cases h3 : jeqStr ((jlookup pkvs "name").getD .null) "describe_table" = true
        · simp only [h3, if_true]
          rcases ha : (jlookup pkvs "arguments").getD (.obj []) with _ | b | n | s | xs | akvs
          · exact Or.inl ⟨_, rfl⟩
          · exact Or.inl ⟨_, rfl⟩
          · exact Or.inl ⟨_, rfl⟩
          · exact Or.inl ⟨_, rfl⟩
          · exact Or.inl ⟨_, rfl⟩
          · exact Or.inr ⟨_, _, rfl⟩
        · simp only [h3, if_false]
          exact Or.inr ⟨_, _, rfl⟩
  | null => exact Or.inl ⟨_, rfl⟩
  | bool b => exact Or.inl ⟨_, rfl⟩
  | num n => exact Or.inl ⟨_, rfl⟩
  | str s => exact Or.inl ⟨_, rfl⟩
  | arr xs => exact Or.inl ⟨_, rfl⟩

/-- Exhaustive outcomes of `handle` on a dict message: the notification
no-reply (exactly when the method is `notifications/initialized`), an
escaping exception, or a single response that is an `{id, result}` or an
`{id, error}` object. -/
theorem handle_obj_cases (db : DB) (kvs : List (String × Json)) :
    (jeqStr ((jlookup kvs "method").getD .null) "notifications/initialized" = true
       ∧ handle db (.obj kvs) = .ok (none, []))
    ∨ (∃ e, handle db (.obj kvs) = .error e)
    ∨ (∃ r t, handle db (.obj kvs) = .ok (some r, t)
        ∧ ((∃ i x, r = okResp i x) ∨ (∃ i c s, r = errResp i c s))) := by
  rw [handle_obj_eq]
  by_cases h1 : jeqStr ((jlookup kvs "method").getD .null) "initialize" = true
  · simp only [h1, if_true]
    exact Or.inr (Or.inr ⟨_, _, rfl, Or.inl ⟨_, _, rfl⟩⟩)
  · simp only [h1, if_false]
    by_cases h2 : jeqStr ((jlookup kvs "method").getD .null) "tools/list" = true
    · simp only [h2, if_true]
      exact Or.inr (Or.inr ⟨_, _, rfl, Or.inl ⟨_, _, rfl⟩⟩)
    · simp only [h2, if_false]
      by_cases h3 : jeqStr ((jlookup kvs "method").getD .null) "tools/call" = true
      · simp only [h3, if_true]
        rcases toolCall_cases db ((jlookup kvs "id").getD .null)
            ((jlookup kvs "params").getD (.obj [])) with ⟨e, he⟩ | ⟨out, tr, ho⟩
        · exact Or.inr (Or.inl ⟨e, he⟩)
        · exact Or.inr (Or.inr ⟨_, _, ho, Or.inl ⟨_, _, rfl⟩⟩)
      · simp only [h3, if_false]
        by_cases h4 : jeqStr ((jlookup kvs "method").getD .null) "notifications/initialized" = true
        · simp only [h4, if_true]
          exact Or.inl ⟨trivial, rfl⟩
        · simp only [h4, if_false]
          exact Or.inr (Or.inr ⟨_, _, rfl, Or.inr ⟨_, _, _, rfl⟩⟩)

/-- `handle` on a non-dict message raises (`msg.get` has no meaning). -/
theorem handle_not_obj (db : DB) (m : Json) (h : ∀ kvs, m ≠ .obj kvs) :
    handle db m = .error ("'" ++ pyTypeName m ++ "' object has no attribute 'get'") := by
  cases m with
  | obj kvs => exact absurd rfl (h kvs)
  | null => rfl
  | bool b => rfl
  | num n => rfl
  | str s => rfl
  | arr xs => rfl

/-- A value equal under Python `==` to a string literal is that string. -/
theorem jeqStr_eq {j : Json} {s : String} (h : jeqStr j s = true) : j = .str s := by
  cases j with
  | str t => simp only [jeqStr, beq_iff_eq] at h; rw [h]
  | null => simp [jeqStr] at h
  | bool b => simp [jeqStr] at h
  | num n => simp [jeqStr] at h
  | arr xs => simp [jeqStr] at h
  | obj kvs => simp [jeqStr] at h

-- ------------------------------------------- response well-formedness

/-- Is the value a JSON integer? -/
def isIntNum : Json → Bool
  | .num _ => true
  | _ => false

/-- Is the value a JSON string? -/
def isStrVal : Json → Bool
  | .str _ => true
  | _ => false

/-- A well-formed JSON-RPC error member: integer `code`, string `message`. -/
def wfErrObj : Json → Bool
  | .obj kvs =>
    (match jlookup kvs "code" with | some c => isIntNum c | none => false) &&
    (match jlookup kvs "message" with | some m => isStrVal m | none => false)
  | _ => false

/-- A well-formed response line: a single JSON object whose `jsonrpc` field is
`"2.0"`, that has an `id`, and that has exactly one of `result` / `error`,
the latter carrying an integer code and a string message. -/
def wfResp : Json → Bool
  | .obj kvs =>
    (match jlookup kvs "jsonrpc" with | some (.str v) => v == "2.0" | _ => false) &&
    hasKey kvs "id" &&
    ((hasKey kvs "result" && !hasKey kvs "error") ||
     (!hasKey kvs "result" && hasKey kvs "error" &&
       (match jlookup kvs "error" with | some e => wfErrObj e | none => false)))
  | _ => false

theorem wf_send_okResp (i r : Json) : wfResp (send (okResp i r)) = true := rfl

theorem wf_send_errResp (i : Json) (c : Int) (s : String) :
    wfResp (send (errResp i c s)) = true := rfl

theorem pyTruthy_okResp (i r : Json) : pyTruthy (okResp i r) = true := rfl

theorem pyTruthy_errResp (i : Json) (c : Int) (s : String) :
    pyTruthy (errResp i c s) = true := rfl

/-- A sample database oracle: connecting succeeds, every statement raises
(`str(e)` = "boom" for the user query, "down" for the catalog queries). -/
def db1 : DB :=
  ⟨.ok (), fun _ => .error "boom", .error "down", fun _ => .error "down"⟩

-- -------------------------------------------------------------- claims

/-- Claim C1 (code bug): the transport loop is supposed to emit exactly one
error response for an unparseable line (with null id when the id cannot be
determined) and keep running.  It does not: the `except` handler reads the
loop variable `msg`, so (first conjunct) a parse failure on the very first
line raises `UnboundLocalError` inside the handler and the process crashes
with zero output, and (second conjunct) after a parsed message with id 7, a
later unparseable line is answered with the *stale* id 7 instead of null. -/
theorem c1_transport_crash (db : DB) (e : String) :
    runMain db [.junk e] = ⟨[], true⟩
    ∧ runMain db [.json (.obj [("id", .num 7), ("method", .str "ping")]), .junk e] =
      ⟨[send (errResp (.num 7) methodNotFoundCode "Unknown method: ping"),
        send (errResp (.num 7) internalErrorCode e)], false⟩ :=
  ⟨rfl, rfl⟩

/-- Claim C2 (code bug): when `cur.execute`/`fetchall` raises, `query_db`
returns the stringified error but the trace is `[openConn]` with no
`closeConn`: `conn.close()` sits on the success path only, so the connection
acquired by the operation is *not* released on the exception exit path. -/
theorem c2_connection_leak (db : DB) (q e : String) (hq : isSelect q = true)
    (hc : db.connect = .ok ()) (hr : db.runQuery q = .error e) :
    query_db_str db q = (dbError e, [DBEvent.openConn]) := by
  simp [query_db_str, hq, hc, hr]

theorem c2_connection_leak_witness :
    isSelect "SELECT * FROM t" = true ∧ db1.connect = .ok () ∧
    db1.runQuery "SELECT * FROM t" = .error "boom" ∧
    query_db_str db1 "SELECT * FROM t" = (dbError "boom", [DBEvent.openConn]) :=
  ⟨rfl, rfl, rfl, c2_connection_leak db1 "SELECT * FROM t" "boom" rfl rfl rfl⟩

/-- The containment contract of claim C3, for one arbitrary query string,
one table name and one request id: each gateway call returns a plain string
(no exception passes the gateway boundary, so `handle` returns a *result*
response wrapping that string for every behaviour of the database); a
disallowed statement type (the SELECT guard failing) is surfaced as a
*successful* RPC result carrying the rejection string; every DB-layer
failure (connect, execute/fetch) becomes the `❌ DB Error:`-marked string;
and an unknown table comes back as the not-found text — all inside results,
never as exceptions. -/
def GatewayContainment (db : DB) (i : Json) (q tname : String) : Prop :=
  query_db db (.str q) = .ok (query_db_str db q)
  ∧ handle db (.obj [("method", .str "tools/call"), ("id", i),
      ("params", .obj [("name", .str "query_database"),
        ("arguments", .obj [("query", .str q)])])]) =
      .ok (some (toolResult i (query_db_str db q).1), (query_db_str db q).2)
  ∧ handle db (.obj [("method", .str "tools/call"), ("id", i),
      ("params", .obj [("name", .str "list_tables")])]) =
      .ok (some (toolResult i (list_tables db).1), (list_tables db).2)
  ∧ handle db (.obj [("method", .str "tools/call"), ("id", i),
      ("params", .obj [("name", .str "describe_table"),
        ("arguments", .obj [("table_name", .str tname)])])]) =
      .ok (some (toolResult i (describe_table db (.str tname)).1),
           (describe_table db (.str tname)).2)
  ∧ (isSelect q = false →
      handle db (.obj [("method", .str "tools/call"), ("id", i),
        ("params", .obj [("name", .str "query_database"),
          ("arguments", .obj [("query", .str q)])])]) =
        .ok (some (toolResult i rejection), []))
  ∧ (∀ e, isSelect q = true → db.connect = .error e →
      (query_db_str db q).1 = dbError e)
  ∧ (∀ e, isSelect q = true → db.connect = .ok () → db.runQuery q = .error e →
      (query_db_str db q).1 = dbError e)
  ∧ (∀ e, db.connect = .error e → (list_tables db).1 = dbError e)
  ∧ (∀ e, db.connect = .ok () → db.tableRows = .error e →
      (list_tables db).1 = dbError e)
  ∧ (∀ e, db.connect = .error e → (describe_table db (.str tname)).1 = dbError e)
  ∧ (∀ e, db.connect = .ok () → db.columnRows (.str tname) = .error e →
      (describe_table db (.str tname)).1 = dbError e)
  ∧ (db.connect = .ok () → db.columnRows (.str tname) = .ok [] →
      (describe_table db (.str tname)).1 = "Table `" ++ tname ++ "` not found.")

/-- Claim C3: for every database behaviour and *every* query string — the
disallowed-statement case included — tool-level failures come back as a
successful RPC result whose content is the failure text; DB-layer
exceptions are caught at the gateway and become `❌ DB Error: <cause>`
strings, never propagating to the dispatcher or transport loop. -/
theorem c3_gateway_total (db : DB) (i : Json) (q tname : String) :
    GatewayContainment db i q tname := by
  refine ⟨rfl, rfl, rfl, rfl, ?_, ?_, ?_, ?_, ?_, ?_, ?_, ?_⟩
  · intro h
    have hrej : query_db_str db q = (rejection, []) := by simp [query_db_str, h]
    have h2 : handle db (.obj [("method", .str "tools/call"), ("id", i),
        ("params", .obj [("name", .str "query_database"),
          ("arguments", .obj [("query", .str q)])])]) =
        .ok (some (toolResult i (query_db_str db q).1), (query_db_str db q).2) := rfl
    rw [h2, hrej]
  · intro e hq hc; simp [query_db_str, hq, hc]
  · intro e hq hc hr; simp [query_db_str, hq, hc, hr]
  · intro e hc; simp [list_tables, hc]
  · intro e hc hr; simp [list_tables, hc, hr]
  · intro e hc; simp [describe_table, hc]
  · intro e hc hr; simp [describe_table, hc, hr]
  · intro hc hr; simp [describe_table, hc, hr, pyStr]

theorem c3_gateway_total_witness :
    GatewayContainment db1 (.num 1) "SELECT 1" "users" ∧
    (isSelect "DROP TABLE t" = false ∧
     GatewayContainment db1 (.num 2) "DROP TABLE t" "users") :=
  ⟨c3_gateway_total db1 (.num 1) "SELECT 1" "users",
   rfl, c3_gateway_total db1 (.num 2) "DROP TABLE t" "users"⟩

/-- Claim C4: any query whose stripped, upper-cased form does not start with
`SELECT` gets the fixed rejection string (which does not carry the DB-error
marker), with an empty connection trace: no connection is ever opened. -/
theorem c4_select_guard (db : DB) (q : String) (h : isSelect q = false) :
    query_db_str db q = (rejection, []) ∧ isDbErrorStr rejection = false := by
  refine ⟨?_, rfl⟩
  simp [query_db_str, h]

theorem c4_select_guard_witness :
    isSelect "DROP TABLE students" = false ∧
    (query_db_str db1 "DROP TABLE students" = (rejection, []) ∧
     isDbErrorStr rejection = false) :=
  ⟨rfl, c4_select_guard db1 "DROP TABLE students" rfl⟩

/-- Claim C5: whatever the database behaviour, the initial `msg` binding and
the input lines, every line the server writes is a single JSON object with
`jsonrpc` equal to `"2.0"`, an `id`, and exactly one of `result` / `error`,
the error member carrying an integer code and a string message. -/
theorem c5_wellformed_responses (db : DB) (last : Option Json) (lines : List Line) :
    ((mainLoop db last lines).outputs.all wfResp) = true := by
  induction lines generalizing last with
  | nil => rfl
  | cons l rest ih =>
    cases l with
    | blank => simpa [mainLoop] using ih last
    | junk e =>
      cases last with
      | none => rfl
      | some m =>
        cases m with
        | obj kvs =>
          simp only [mainLoop, pyGetD_obj, List.all_cons, wf_send_errResp, Bool.true_and]
          exact ih (some (.obj kvs))
        | null => rfl
        | bool b => rfl
        | num n => rfl
        | str s => rfl
        | arr xs => rfl
    | json j =>
      cases j with
      | obj kvs =>
        rcases handle_obj_cases db kvs with ⟨_, hh⟩ | ⟨e, hh⟩ | ⟨r, t, hh, hs⟩
        · simp only [mainLoop, hh]
          exact ih (some (.obj kvs))
        · simp only [mainLoop, hh, pyGetD_obj, List.all_cons, wf_send_errResp,
            Bool.true_and]
          exact ih (some (.obj kvs))
        · rcases hs with ⟨i, x, rfl⟩ | ⟨i, c, s, rfl⟩
          · simp only [mainLoop, hh, pyTruthy_okResp, if_true, List.all_cons,
              wf_send_okResp, Bool.true_and]
            exact ih (some (.obj kvs))
          · simp only [mainLoop, hh, pyTruthy_errResp, if_true, List.all_cons,
              wf_send_errResp, Bool.true_and]
            exact ih (some (.obj kvs))
      | null => rfl
      | bool b => rfl
      | num n => rfl
      | str s => rfl
      | arr xs => rfl

/-- Counterexample to claim C6 as stated: the request
`{"method": "notifications/initialized", "id": 1}` carries an id, yet the
server writes zero response lines for it. -/
theorem c6_counterexample :
    runMain db1 [.json (.obj [("method", .str "notifications/initialized"),
      ("id", .num 1)])] = ⟨[], false⟩ := rfl

/-- Claim C6 as amended: whether a parsed request object gets a response is
decided by its *method*, not by the presence of an id.  A
`notifications/initialized` request produces zero output lines even when it
carries an id; every other parsed request object produces exactly one
response line, with or without an id. -/
theorem c6_amended_responses (db : DB) (kvs : List (String × Json)) :
    (jeqStr ((jlookup kvs "method").getD .null) "notifications/initialized" = true →
       runMain db [.json (.obj kvs)] = ⟨[], false⟩)
    ∧ (jeqStr ((jlookup kvs "method").getD .null) "notifications/initialized" = false →
       (runMain db [.json (.obj kvs)]).outputs.length = 1 ∧
       (runMain db [.json (.obj kvs)]).crashed = false) := by
  constructor
  · intro h
    have hm := jeqStr_eq h
    have hh : handle db (.obj kvs) = .ok (none, []) := by
      rw [handle_obj_eq, hm]; simp [jeqStr]
    simp [runMain, mainLoop, hh]
  · intro h
    rcases handle_obj_cases db kvs with ⟨hc, _⟩ | ⟨e, hh⟩ | ⟨r, t, hh, hs⟩
    · rw [h] at hc; simp at hc
    · simp [runMain, mainLoop, hh, pyGetD_obj]
    · rcases hs with ⟨i, x, rfl⟩ | ⟨i, c, s, rfl⟩
      · simp [runMain, mainLoop, hh, pyTruthy_okResp]
      · simp [runMain, mainLoop, hh, pyTruthy_errResp]

theorem c6_amended_responses_witness :
    jeqStr ((jlookup [("method", Json.str "tools/list")] "method").getD .null)
        "notifications/initialized" = false ∧
    ((runMain db1 [.json (.obj [("method", .str "tools/list")])]).outputs.length = 1 ∧
     (runMain db1 [.json (.obj [("method", .str "tools/list")])]).crashed = false) :=
  ⟨rfl, (c6_amended_responses db1 [("method", Json.str "tools/list")]).2 rfl⟩

/-- Claim C7: any method other than the four known ones is answered with an
error response whose code is the fixed method-not-found code, whose message
names the method, and whose id echoes the request id; that code and the
transport-failure code are distinct negative integers. -/
theorem c7_unknown_method (db : DB) (i : Json) (m : String)
    (h1 : m ≠ "initialize") (h2 : m ≠ "tools/list") (h3 : m ≠ "tools/call")
    (h4 : m ≠ "notifications/initialized") :
    handle db (.obj [("method", .str m), ("id", i)]) =
      .ok (some (errResp i methodNotFoundCode ("Unknown method: " ++ m)), [])
    ∧ methodNotFoundCode < 0 ∧ internalErrorCode < 0
    ∧ methodNotFoundCode ≠ internalErrorCode := by
  refine ⟨?_, by decide, by decide, by decide⟩
  rw [handle_obj_eq]
  simp [jlookup, jeqStr, h1, h2, h3, h4, pyStr]

theorem c7_unknown_method_witness :
    ("ping" ≠ "initialize") ∧ ("ping" ≠ "tools/list") ∧ ("ping" ≠ "tools/call") ∧
    ("ping" ≠ "notifications/initialized") ∧
    (handle db1 (.obj [("method", .str "ping"), ("id", .num 3)]) =
      .ok (some (errResp (.num 3) methodNotFoundCode "Unknown method: ping"), [])
     ∧ methodNotFoundCode < 0 ∧ internalErrorCode < 0
     ∧ methodNotFoundCode ≠ internalErrorCode) :=
  ⟨by decide, by decide, by decide, by decide,
   c7_unknown_method db1 (.num 3) "ping" (by decide) (by decide) (by decide) (by decide)⟩

/-- Claim C8: a `tools/call` whose tool name matches none of the three tools
yields a *result* (not an error) whose single text content block reads
`Unknown tool: <name>` — both with an id and for the id-less request of the
claim's concrete example. -/
theorem c8_unknown_tool (db : DB) (i : Json) (name : String)
    (h1 : name ≠ "query_database") (h2 : name ≠ "list_tables")
    (h3 : name ≠ "describe_table") :
    handle db (.obj [("method", .str "tools/call"), ("id", i),
        ("params", .obj [("name", .str name)])]) =
      .ok (some (toolResult i ("Unknown tool: " ++ name)), [])
    ∧ handle db (.obj [("method", .str "tools/call"),
        ("params", .obj [("name", .str name)])]) =
      .ok (some (toolResult .null ("Unknown tool: " ++ name)), []) := by
  constructor <;>
    (rw [handle_obj_eq];
     simp [jlookup, jeqStr, toolCallBranch, pyGetD_obj, ebind_ok, epure, h1, h2, h3, pyStr])

theorem c8_unknown_tool_witness :
    ("bogus" ≠ "query_database") ∧ ("bogus" ≠ "list_tables") ∧
    ("bogus" ≠ "describe_table") ∧
    (handle db1 (.obj [("method", .str "tools/call"), ("id", .num 2),
        ("params", .obj [("name", .str "bogus")])]) =
      .ok (some (toolResult (.num 2) ("Unknown tool: " ++ "bogus")), [])
     ∧ handle db1 (.obj [("method", .str "tools/call"),
        ("params", .obj [("name", .str "bogus")])]) =
      .ok (some (toolResult .null ("Unknown tool: " ++ "bogus")), [])) :=
  ⟨by decide, by decide, by decide,
   c8_unknown_tool db1 (.num 2) "bogus" (by decide) (by decide) (by decide)⟩

/-- Claim C9: a `tools/call` with no `params.arguments` behaves as if the
arguments mapping were empty, and a missing `query` / `table_name` key is
read as the empty string; no exception is raised for any of these absent
optional fields (each dispatch returns `.ok`). -/
theorem c9_missing_arguments (db : DB) (i : Json) :
    handle db (.obj [("method", .str "tools/call"), ("id", i),
        ("params", .obj [("name", .str "query_database")])]) =
      .ok (some (toolResult i (query_db_str db "").1), (query_db_str db "").2)
    ∧ handle db (.obj [("method", .str "tools/call"), ("id", i),
        ("params", .obj [("name", .str "query_database"), ("arguments", .obj [])])]) =
      .ok (some (toolResult i (query_db_str db "").1), (query_db_str db "").2)
    ∧ handle db (.obj [("method", .str "tools/call"), ("id", i),
        ("params", .obj [("name", .str "describe_table")])]) =
      .ok (some (toolResult i (describe_table db (.str "")).1),
           (describe_table db (.str "")).2)
    ∧ handle db (.obj [("method", .str "tools/call"), ("id", i),
        ("params", .obj [("name", .str "describe_table"), ("arguments", .obj [])])]) =
      .ok (some (toolResult i (describe_table db (.str "")).1),
           (describe_table db (.str "")).2)
    ∧ handle db (.obj [("method", .str "tools/call"), ("id", i),
        ("params", .obj [("name", .str "list_tables")])]) =
      .ok (some (toolResult i (list_tables db).1), (list_tables db).2)
    ∧ query_db_str db "" = (rejection, []) :=
  ⟨rfl, rfl, rfl, rfl, rfl, rfl⟩

/-- Claim C10: a non-string `query` argument (here the JSON number 5 and
null) makes `query.strip()` raise before the `try` block, so the failure
escapes the gateway: `handle` raises, and the transport loop turns it into a
protocol-level error response (code -32000), not a successful tool result. -/
theorem c10_nonstring_query_escapes (db : DB) (i : Json) :
    query_db db (.num 5) = .error "'int' object has no attribute 'strip'"
    ∧ query_db db .null = .error "'NoneType' object has no attribute 'strip'"
    ∧ handle db (.obj [("method", .str "tools/call"), ("id", i),
        ("params", .obj [("name", .str "query_database"),
          ("arguments", .obj [("query", .num 5)])])]) =
      .error "'int' object has no attribute 'strip'"
    ∧ runMain db [.json (.obj [("method", .str "tools/call"), ("id", i),
        ("params", .obj [("name", .str "query_database"),
          ("arguments", .obj [("query", .num 5)])])])] =
      ⟨[send (errResp i internalErrorCode "'int' object has no attribute 'strip'")],
        false⟩ :=
  ⟨rfl, rfl, rfl, rfl⟩

end PgMcp
